import Mathlib

/-!
Shallow embedding of the core of the litep2p repository:

* the request/response protocol engine (`src/protocol/request_response/mod.rs`),
* the notification connection driver (`src/protocol/notification/connection.rs`),
* QUIC multiaddress parsing (`src/transport/quic/mod.rs`),
* `ProtocolName` (`src/types/protocol.rs`).

Hash maps and hash sets are embedded as association lists and lists; async
channels and one-shots are embedded by making the outcome of each external
interaction (dial result, substream-open result, which select branch fired)
an explicit oracle argument of the corresponding handler, exactly where the
Rust code branches on that outcome.  Events sent to the user event channel
are collected into a list.
-/

namespace Litep2p

/-- Bytes of a frame or payload. -/
abbrev Bytes := List Nat

/-- Peer identifier (opaque in the source; embedded as `Nat`). -/
abbrev PeerId := Nat

/-- Request identifier drawn from the process-wide counter. -/
abbrev RequestId := Nat

/-- Substream identifier assigned by the transport. -/
abbrev SubstreamId := Nat

/-- Lookup in an association list, mirroring `HashMap::get`. -/
def alistLookup {α β : Type} [DecidableEq α] : List (α × β) → α → Option β
  | [], _ => none
  | (k, v) :: rest, key => if k = key then some v else alistLookup rest key

/-- Remove a key from an association list, mirroring `HashMap::remove`
(the map holds at most one binding per key). -/
def alistRemove {α β : Type} [DecidableEq α] : List (α × β) → α → List (α × β)
  | [], _ => []
  | (k, v) :: rest, key => if k = key then rest else (k, v) :: alistRemove rest key

/-- Insert or replace a binding, mirroring `HashMap::insert`. -/
def alistInsert {α β : Type} [DecidableEq α] (l : List (α × β)) (key : α) (v : β) :
    List (α × β) :=
  (key, v) :: alistRemove l key

/-- Membership test for the list embedding of `HashSet`. -/
def setMem {α : Type} [DecidableEq α] (l : List α) (x : α) : Bool := l.contains x

/-- `HashSet::insert`: returns the new set and whether the value was newly
inserted (`true` iff the value was not present). -/
def setInsert {α : Type} [DecidableEq α] (l : List α) (x : α) : List α × Bool :=
  if l.contains x then (l, false) else (x :: l, true)

/-- `HashSet::remove`: returns the new set and whether the value was present. -/
def setRemove {α : Type} [DecidableEq α] (l : List α) (x : α) : List α × Bool :=
  (l.erase x, l.contains x)

/-! ## Request/response protocol: data model (`request_response/mod.rs`) -/

/-- `DialOptions` of the `SendRequest` command. -/
inductive DialOptions where
  | Reject
  | Dial
deriving DecidableEq, Repr

/-- `RequestResponseError`: errors reported through `RequestFailed`. -/
inductive RequestResponseError where
  | NotConnected
  | Rejected
  | Timeout
  | Canceled
  | TooLargePayload
deriving DecidableEq, Repr

/-- `RequestResponseEvent`: events sent to the user protocol. -/
inductive RequestResponseEvent where
  | RequestReceived (peer : PeerId) (fallback : Option String) (request_id : RequestId)
      (request : Bytes)
  | ResponseReceived (peer : PeerId) (request_id : RequestId) (response : Bytes)
  | RequestFailed (peer : PeerId) (request_id : RequestId) (error : RequestResponseError)
deriving DecidableEq, Repr

/-- Internal `Error` variants the handlers return (`crate::Result`). -/
inductive EngineError where
  | PeerAlreadyExists
  | PeerDoesntExist
  | InvalidState
  | SubstreamDoesntExist
  | Other
deriving DecidableEq, Repr

/-- `crate::Result<()>` of a handler. -/
inductive EngineResult where
  | ok
  | err (e : EngineError)
deriving DecidableEq, Repr

/-- `RequestContext`: an outbound request together with its owner and id. -/
structure RequestContext where
  peer : PeerId
  request_id : RequestId
  request : Bytes
deriving DecidableEq, Repr

/-- `RequestContext::new`. -/
def RequestContext.new (peer : PeerId) (request_id : RequestId) (request : Bytes) :
    RequestContext :=
  { peer := peer, request_id := request_id, request := request }

/-- `PeerContext`: per-peer bookkeeping of the engine. -/
structure PeerContext where
  active : List RequestId
  active_inbound : List (RequestId × Option String)
deriving DecidableEq, Repr

/-- `PeerContext::new`. -/
def PeerContext.new : PeerContext :=
  { active := [], active_inbound := [] }

/-- State of `RequestResponseProtocol`.  Substreams are embedded by the
identifier the trace gave them; in-flight request futures are embedded by
the `(peer, request id)` pair they carry, membership meaning the future
(and hence the cancellation one-shot receiver) is still alive. -/
structure Engine where
  peers : List (PeerId × PeerContext)
  pending_outbound : List (SubstreamId × RequestContext)
  pending_outbound_responses : List (RequestId × Nat)
  pending_inbound : List (PeerId × RequestId)
  pending_outbound_cancels : List (RequestId × Unit)
  pending_inbound_requests : List ((PeerId × RequestId) × Nat)
  pending_dials : List (PeerId × RequestContext)
  next_request_id : Nat
deriving DecidableEq, Repr

/-- Fresh engine, as built by `RequestResponseProtocol::new`. -/
def Engine.initial : Engine :=
  { peers := []
    pending_outbound := []
    pending_outbound_responses := []
    pending_inbound := []
    pending_outbound_cancels := []
    pending_inbound_requests := []
    pending_dials := []
    next_request_id := 0 }

/-- Result of one handler: new state, events pushed to `event_tx`, and the
`crate::Result` the handler returned. -/
structure HandlerResult where
  state : Engine
  events : List RequestResponseEvent
  result : EngineResult
deriving DecidableEq, Repr

/-! ## Request/response protocol: handlers -/

/-- `report_request_failure`: push `RequestFailed` to `event_tx`. -/
def report_request_failure (st : Engine) (peer : PeerId) (request_id : RequestId)
    (error : RequestResponseError) : HandlerResult :=
  { state := st, events := [.RequestFailed peer request_id error], result := .ok }

/-- `on_connection_established`.  `openResult` is the outcome of the
`service.open_substream(peer)` call, consulted only when a pending dial for
the peer exists (`none` embeds the error case). -/
def on_connection_established (st : Engine) (peer : PeerId)
    (openResult : Option SubstreamId) : HandlerResult :=
  match alistLookup st.peers peer with
  | some _ => { state := st, events := [], result := .err .PeerAlreadyExists }
  | none =>
    match alistLookup st.pending_dials peer with
    | none =>
      { state := { st with peers := alistInsert st.peers peer PeerContext.new }
        events := []
        result := .ok }
    | some context =>
      let st1 := { st with pending_dials := alistRemove st.pending_dials peer }
      match openResult with
      | some substream_id =>
        { state := { st1 with
            peers := alistInsert st1.peers peer
              ({ active := [context.request_id], active_inbound := [] })
            pending_outbound := alistInsert st1.pending_outbound substream_id
              (RequestContext.new peer context.request_id context.request) }
          events := []
          result := .ok }
      | none => report_request_failure st1 peer context.request_id .Rejected

/-- `on_connection_closed`: drop the peer context and report `Rejected`
for every active outbound request of the peer. -/
def on_connection_closed (st : Engine) (peer : PeerId) : HandlerResult :=
  match alistLookup st.peers peer with
  | none => { state := st, events := [], result := .ok }
  | some context =>
    { state := { st with peers := alistRemove st.peers peer }
      events := context.active.map
        (fun request_id => .RequestFailed peer request_id .Rejected)
      result := .ok }

/-- Outcome of `substream.send_framed(request)` inside the in-flight
request future. -/
inductive SendOutcome where
  | sent
  | ioPermissionDenied
  | otherError
deriving DecidableEq, Repr

/-- Which branch of the `tokio::select!` inside the in-flight request
future fired first: the cancellation one-shot, the timeout timer, or
`substream.next()` (a good frame, an errored frame, or orderly close). -/
inductive SelectOutcome where
  | canceled
  | timedOut
  | recvFrame (response : Bytes)
  | recvError
  | recvClosed
deriving DecidableEq, Repr

/-- `Result<Vec<u8>, RequestResponseError>` carried by a resolved future. -/
inductive RequestOutcome where
  | ok (response : Bytes)
  | err (e : RequestResponseError)
deriving DecidableEq, Repr

/-- Body of the in-flight request future built in `on_outbound_substream`
(the async block pushed onto `pending_inbound`). -/
def request_future (peer : PeerId) (request_id : RequestId)
    (send : SendOutcome) (sel : SelectOutcome) : PeerId × RequestId × RequestOutcome :=
  match send with
  | .sent =>
    match sel with
    | .canceled => (peer, request_id, .err .Canceled)
    | .timedOut => (peer, request_id, .err .Timeout)
    | .recvFrame response => (peer, request_id, .ok response)
    | .recvError => (peer, request_id, .err .Rejected)
    | .recvClosed => (peer, request_id, .err .Rejected)
  | .ioPermissionDenied => (peer, request_id, .err .TooLargePayload)
  | .otherError => (peer, request_id, .err .NotConnected)

/-- `on_outbound_substream`: move the context out of `pending_outbound`,
record the cancellation one-shot, and schedule the in-flight future
(embedded as its `(peer, request id)` pair in `pending_inbound`). -/
def on_outbound_substream (st : Engine) (peer : PeerId) (substream_id : SubstreamId) :
    HandlerResult :=
  match alistLookup st.pending_outbound substream_id with
  | none => { state := st, events := [], result := .err .InvalidState }
  | some context =>
    { state := { st with
        pending_outbound := alistRemove st.pending_outbound substream_id
        pending_outbound_cancels :=
          alistInsert st.pending_outbound_cancels context.request_id ()
        pending_inbound := (peer, context.request_id) :: st.pending_inbound }
      events := []
      result := .ok }

/-- `on_inbound_request`: first frame (or read error) on an inbound
substream held in `pending_inbound_requests`. -/
def on_inbound_request (st : Engine) (peer : PeerId) (request_id : RequestId)
    (request : Option Bytes) : HandlerResult :=
  match alistLookup st.peers peer with
  | none => { state := st, events := [], result := .err .PeerDoesntExist }
  | some ctx =>
    match alistLookup ctx.active_inbound request_id with
    | none => { state := st, events := [], result := .err .InvalidState }
    | some fallback =>
      let ctx1 := { ctx with active_inbound := alistRemove ctx.active_inbound request_id }
      let st1 := { st with peers := alistInsert st.peers peer ctx1 }
      match alistLookup st1.pending_inbound_requests (peer, request_id) with
      | none => { state := st1, events := [], result := .err .InvalidState }
      | some substream =>
        let inbound1 := alistRemove st1.pending_inbound_requests (peer, request_id)
        let st2 := { st1 with pending_inbound_requests := inbound1 }
        match request with
        | some request =>
          let responses1 := alistInsert st2.pending_outbound_responses request_id substream
          { state := { st2 with pending_outbound_responses := responses1 }
            events := [.RequestReceived peer fallback request_id request]
            result := .ok }
        | none => { state := st2, events := [], result := .ok }

/-- `on_inbound_substream`: allocate an ephemeral request id (the counter
is advanced before the peer lookup, exactly as in the source), then file
the substream under `active_inbound` and `pending_inbound_requests`. -/
def on_inbound_substream (st : Engine) (peer : PeerId) (fallback : Option String)
    (substream : Nat) : HandlerResult :=
  let request_id := st.next_request_id
  let st1 := { st with next_request_id := st.next_request_id + 1 }
  match alistLookup st1.peers peer with
  | none => { state := st1, events := [], result := .err .PeerDoesntExist }
  | some ctx =>
    { state := { st1 with
        peers := alistInsert st1.peers peer
          ({ ctx with active_inbound := alistInsert ctx.active_inbound request_id fallback })
        pending_inbound_requests :=
          alistInsert st1.pending_inbound_requests (peer, request_id) substream }
      events := []
      result := .ok }

/-- `on_dial_failure`. -/
def on_dial_failure (st : Engine) (peer : PeerId) : HandlerResult :=
  match alistLookup st.pending_dials peer with
  | none => { state := st, events := [], result := .ok }
  | some context =>
    let st1 := { st with pending_dials := alistRemove st.pending_dials peer }
    report_request_failure st1 peer context.request_id .Rejected

/-- `on_substream_open_failure`. -/
def on_substream_open_failure (st : Engine) (substream : SubstreamId) : HandlerResult :=
  match alistLookup st.pending_outbound substream with
  | none => { state := st, events := [], result := .err .InvalidState }
  | some context =>
    { state := { st with pending_outbound := alistRemove st.pending_outbound substream }
      events := [.RequestFailed context.peer context.request_id .Rejected]
      result := .ok }

/-- `on_send_request`.  `dialOk` is the outcome of `service.dial(peer)`;
`openResult` the outcome of `service.open_substream(peer)`; each is
consulted only where the source calls the corresponding operation. -/
def on_send_request (st : Engine) (peer : PeerId) (request_id : RequestId)
    (request : Bytes) (dial_options : DialOptions)
    (dialOk : Bool) (openResult : Option SubstreamId) : HandlerResult :=
  match alistLookup st.peers peer with
  | none =>
    match dial_options with
    | .Reject => report_request_failure st peer request_id .NotConnected
    | .Dial =>
      if dialOk then
        let dials1 := alistInsert st.pending_dials peer (RequestContext.new peer request_id request)
        { state := { st with pending_dials := dials1 }
          events := []
          result := .ok }
      else
        report_request_failure st peer request_id .Rejected
  | some context =>
    let active1 := (setInsert context.active request_id).1
    let st1 := { st with peers := alistInsert st.peers peer ({ context with active := active1 }) }
    match openResult with
    | some substream_id =>
      let outbound1 := alistInsert st1.pending_outbound substream_id
        (RequestContext.new peer request_id request)
      { state := { st1 with pending_outbound := outbound1 }
        events := []
        result := .ok }
    | none => report_request_failure st1 peer request_id .Rejected

/-- `on_send_response`.  On a send error the substream is closed and no
event is emitted, so the embedding does not need the send outcome. -/
def on_send_response (st : Engine) (request_id : RequestId) : HandlerResult :=
  match alistLookup st.pending_outbound_responses request_id with
  | some _substream =>
    let responses1 := alistRemove st.pending_outbound_responses request_id
    { state := { st with pending_outbound_responses := responses1 }
      events := []
      result := .ok }
  | none => { state := st, events := [], result := .err .Other }

/-- `on_substream_event`: a resolved in-flight future.  A `Canceled`
result removes the id from the active set and returns without emitting
any event. -/
def on_substream_event (st : Engine) (peer : PeerId) (request_id : RequestId)
    (message : RequestOutcome) : HandlerResult :=
  match alistLookup st.peers peer with
  | none => { state := st, events := [], result := .err .PeerDoesntExist }
  | some ctx =>
    let removed := setRemove ctx.active request_id
    let st1 := { st with peers := alistInsert st.peers peer ({ ctx with active := removed.1 }) }
    if removed.2 then
      match message with
      | .ok response =>
        { state := st1, events := [.ResponseReceived peer request_id response], result := .ok }
      | .err .Canceled => { state := st1, events := [], result := .ok }
      | .err error =>
        { state := st1, events := [.RequestFailed peer request_id error], result := .ok }
    else
      { state := st1, events := [], result := .err .InvalidState }

/-- The cancellation one-shot `send` succeeds exactly when the receiver is
still alive, i.e. the in-flight future for the request has not yet
completed and been dropped. -/
def cancelReceiverAlive (st : Engine) (request_id : RequestId) : Bool :=
  st.pending_inbound.any (fun pr => pr.2 = request_id)

/-- `on_cancel_request`: fire the one-shot in `pending_outbound_cancels`;
an absent entry silently succeeds; a present entry whose receiver is gone
yields `Error::SubstreamDoesntExist`. -/
def on_cancel_request (st : Engine) (request_id : RequestId) : HandlerResult :=
  match alistLookup st.pending_outbound_cancels request_id with
  | some _ =>
    let cancels1 := alistRemove st.pending_outbound_cancels request_id
    let st1 := { st with pending_outbound_cancels := cancels1 }
    if cancelReceiverAlive st request_id then
      { state := st1, events := [], result := .ok }
    else
      { state := st1, events := [], result := .err .SubstreamDoesntExist }
  | none => { state := st, events := [], result := .ok }

/-- `RejectRequest` handling inlined in the `run` loop: drop and close the
stored substream, if any. -/
def on_reject_request (st : Engine) (request_id : RequestId) : HandlerResult :=
  match alistLookup st.pending_outbound_responses request_id with
  | some _ =>
    let responses1 := alistRemove st.pending_outbound_responses request_id
    { state := { st with pending_outbound_responses := responses1 }
      events := []
      result := .ok }
  | none => { state := st, events := [], result := .ok }

/-! ## Request/response protocol: event loop -/

/-- One unit of work dispatched by the `run` event loop: a transport
event, a resolved future, a first inbound frame, or a user command.
Oracle outcomes of external calls ride along with the input. -/
inductive EngineInput where
  | connectionEstablished (peer : PeerId) (openResult : Option SubstreamId)
  | connectionClosed (peer : PeerId)
  | inboundSubstream (peer : PeerId) (fallback : Option String) (substream : Nat)
  | outboundSubstream (peer : PeerId) (substream_id : SubstreamId)
  | substreamOpenFailure (substream_id : SubstreamId)
  | dialFailure (peer : PeerId)
  | futureResolved (peer : PeerId) (request_id : RequestId) (message : RequestOutcome)
  | inboundRequestFrame (peer : PeerId) (request_id : RequestId) (request : Option Bytes)
  | sendRequest (peer : PeerId) (request_id : RequestId) (request : Bytes)
      (dial_options : DialOptions) (dialOk : Bool) (openResult : Option SubstreamId)
  | sendResponse (request_id : RequestId)
  | rejectRequest (request_id : RequestId)
  | cancelRequest (request_id : RequestId)
deriving DecidableEq, Repr

/-- One iteration of the `run` loop.  Handler errors are only logged by
the loop, so the step keeps the state and events and drops the result.
A resolved future is first removed from `pending_inbound` (it completed
and was dropped, together with its cancellation receiver). -/
def engineStep (st : Engine) (input : EngineInput) : Engine × List RequestResponseEvent :=
  match input with
  | .connectionEstablished peer openResult =>
    let r := on_connection_established st peer openResult
    (r.state, r.events)
  | .connectionClosed peer =>
    let r := on_connection_closed st peer
    (r.state, r.events)
  | .inboundSubstream peer fallback substream =>
    let r := on_inbound_substream st peer fallback substream
    (r.state, r.events)
  | .outboundSubstream peer substream_id =>
    let r := on_outbound_substream st peer substream_id
    (r.state, r.events)
  | .substreamOpenFailure substream_id =>
    let r := on_substream_open_failure st substream_id
    (r.state, r.events)
  | .dialFailure peer =>
    let r := on_dial_failure st peer
    (r.state, r.events)
  | .futureResolved peer request_id message =>
    let st1 := { st with pending_inbound := st.pending_inbound.erase (peer, request_id) }
    let r := on_substream_event st1 peer request_id message
    (r.state, r.events)
  | .inboundRequestFrame peer request_id request =>
    let r := on_inbound_request st peer request_id request
    (r.state, r.events)
  | .sendRequest peer request_id request dial_options dialOk openResult =>
    let r := on_send_request st peer request_id request dial_options dialOk openResult
    (r.state, r.events)
  | .sendResponse request_id =>
    let r := on_send_response st request_id
    (r.state, r.events)
  | .rejectRequest request_id =>
    let r := on_reject_request st request_id
    (r.state, r.events)
  | .cancelRequest request_id =>
    let r := on_cancel_request st request_id
    (r.state, r.events)

/-- Run the event loop over a list of inputs, collecting all events sent
to the user in order. -/
def engineRun (st : Engine) : List EngineInput → Engine × List RequestResponseEvent
  | [] => (st, [])
  | input :: rest =>
    let step := engineStep st input
    let run := engineRun step.1 rest
    (run.1, step.2 ++ run.2)

/-- Is the event a terminal event (`ResponseReceived` or `RequestFailed`)
for the given request id? -/
def isTerminalFor (request_id : RequestId) : RequestResponseEvent → Bool
  | .ResponseReceived _ rid _ => rid = request_id
  | .RequestFailed _ rid _ => rid = request_id
  | .RequestReceived _ _ _ _ => false

/-- Number of terminal events emitted for a request id. -/
def terminalCount (events : List RequestResponseEvent) (request_id : RequestId) : Nat :=
  (events.filter (isTerminalFor request_id)).length

/-! ## Notification connection driver (`notification/connection.rs`) -/

/-- `NotifyProtocol`: whether `close_connection` signals `conn_closed_tx`. -/
inductive NotifyProtocol where
  | yes
  | no
deriving DecidableEq, Repr

/-- Observable actions performed while tearing a connection down. -/
structure CloseActions where
  inbound_closed : Bool
  outbound_closed : Bool
  notified_protocol : Bool
  reported_stream_closed : Bool
deriving DecidableEq, Repr

/-- `Connection::close_connection`: close both substreams, signal
`conn_closed_tx` only for `NotifyProtocol::Yes`, then report the
stream-closed event to the user. -/
def close_connection : NotifyProtocol → CloseActions
  | .yes =>
    { inbound_closed := true
      outbound_closed := true
      notified_protocol := true
      reported_stream_closed := true }
  | .no =>
    { inbound_closed := true
      outbound_closed := true
      notified_protocol := false
      reported_stream_closed := true }

/-- One `substream.next()` outcome: orderly close (`None`), an errored
frame (`Some(Err(_))`), or a good frame (`Some(Ok(data))`). -/
inductive FrameEvent where
  | closed
  | errored
  | frame (data : Bytes)
deriving DecidableEq, Repr

/-- Which branch of the `tokio::select!` in `Connection::start` fired,
together with the value it produced.  `asyncRecv`/`syncRecv` carry the
channel value (`none` = channel closed) and the outcome of the
`send_framed` call made on `some`. -/
inductive ConnBranch where
  | shutdownSignal
  | asyncRecv (notification : Option Bytes) (sendOk : Bool)
  | syncRecv (notification : Option Bytes) (sendOk : Bool)
  | notifReserve (reserveOk : Bool)
  | inboundRead (event : FrameEvent)
  | outboundRead (event : FrameEvent)
deriving DecidableEq, Repr

/-- Outcome of one loop iteration: keep looping with a (possibly updated)
buffered notification and an optional frame delivered to `notif_tx`,
leave the loop through `close_connection`, or the branch was disabled by
its select guard and cannot fire in this state. -/
inductive StepOutcome where
  | looping (next_notification : Option Bytes) (delivered : Option Bytes)
  | exit (actions : CloseActions)
  | disabled
deriving DecidableEq, Repr

/-- One iteration of the `Connection::start` select loop.  The guards of
the source are embedded exactly: `notifReserve` requires a buffered
notification (`if next_notification.is_some()`) and `inboundRead`
requires the buffer to be empty (`if next_notification.is_none()`). -/
def connStep (next_notification : Option Bytes) : ConnBranch → StepOutcome
  | .shutdownSignal => .exit (close_connection .no)
  | .asyncRecv none _ => .exit (close_connection .yes)
  | .asyncRecv (some _) sendOk =>
    if sendOk then .looping next_notification none else .exit (close_connection .yes)
  | .syncRecv none _ => .exit (close_connection .yes)
  | .syncRecv (some _) sendOk =>
    if sendOk then .looping next_notification none else .exit (close_connection .yes)
  | .notifReserve reserveOk =>
    match next_notification with
    | some n => if reserveOk then .looping none (some n) else .looping (some n) none
    | none => .disabled
  | .inboundRead event =>
    match next_notification with
    | none =>
      match event with
      | .closed => .exit (close_connection .yes)
      | .errored => .exit (close_connection .yes)
      | .frame data => .looping (some data) none
    | some _ => .disabled
  | .outboundRead event =>
    match event with
    | .closed => .exit (close_connection .yes)
    | .errored => .looping next_notification none
    | .frame _ => .looping next_notification none

/-- Run the connection loop over a sequence of fired branches: collect the
frames delivered to the user and stop at the first exit. -/
def connRun (next_notification : Option Bytes) :
    List ConnBranch → List Bytes × Option CloseActions
  | [] => ([], none)
  | b :: rest =>
    match connStep next_notification b with
    | .disabled => connRun next_notification rest
    | .looping buf1 delivered =>
      let r := connRun buf1 rest
      (delivered.toList ++ r.1, r.2)
    | .exit actions => ([], some actions)

/-- Number of frames a buffer state holds. -/
def bufferCount (next_notification : Option Bytes) : Nat :=
  match next_notification with
  | none => 0
  | some _ => 1

/-! ## QUIC multiaddress parsing (`transport/quic/mod.rs`) -/

/-- A multihash as carried by the `P2p` component.  `PeerId::from_multihash`
is defined outside the embedded sources; it succeeds exactly when the
multihash encodes a valid peer id, which the field records. -/
structure Multihash where
  asPeerId : Option PeerId
deriving DecidableEq, Repr

/-- Multiaddress protocol components relevant to the QUIC transport. -/
inductive MProtocol where
  | ip4 (addr : Nat)
  | ip6 (addr : Nat)
  | udp (port : Nat)
  | quicV1
  | p2p (hash : Multihash)
  | tcp (port : Nat)
deriving DecidableEq, Repr

/-- `SocketAddr` built from the ip and udp components. -/
structure SocketAddress where
  isV6 : Bool
  addr : Nat
  port : Nat
deriving DecidableEq, Repr

/-- Address errors of the transport (`AddressError` plus the peer-id
decode failure propagated by `?` from `PeerId::from_multihash`). -/
inductive AddressError where
  | InvalidProtocol
  | PeerIdMissing
  | ParseError
deriving DecidableEq, Repr

/-- Result of `get_socket_address`. -/
inductive ParseOutcome where
  | ok (address : SocketAddress) (peer : Option PeerId)
  | err (e : AddressError)
deriving DecidableEq, Repr

/-- Continuation of `get_socket_address` after the ip and udp components
were consumed: require `QuicV1`, then an optional `P2p` component; any
components after `P2p` are never drawn from the iterator. -/
def quicSuffix (socket_address : SocketAddress) : List MProtocol → ParseOutcome
  | .quicV1 :: rest =>
    match rest with
    | .p2p hash :: _ =>
      match hash.asPeerId with
      | some peer => .ok socket_address (some peer)
      | none => .err .ParseError
    | [] => .ok socket_address none
    | _ :: _ => .err .InvalidProtocol
  | _ => .err .InvalidProtocol

/-- `QuicTransport::get_socket_address`. -/
def get_socket_address : List MProtocol → ParseOutcome
  | .ip6 a :: rest =>
    match rest with
    | .udp port :: rest2 => quicSuffix { isV6 := true, addr := a, port := port } rest2
    | _ => .err .InvalidProtocol
  | .ip4 a :: rest =>
    match rest with
    | .udp port :: rest2 => quicSuffix { isV6 := false, addr := a, port := port } rest2
    | _ => .err .InvalidProtocol
  | _ => .err .InvalidProtocol

/-- Result of the address handling at the start of `on_dial_peer`. -/
inductive DialParse where
  | ok (address : SocketAddress) (peer : PeerId)
  | err (e : AddressError)
deriving DecidableEq, Repr

/-- Address handling of `on_dial_peer`: the `let Ok((socket_address,
Some(peer))) = ... else` collapses every parse failure and every address
without a peer id into `AddressError::PeerIdMissing`. -/
def on_dial_peer_address (address : List MProtocol) : DialParse :=
  match get_socket_address address with
  | .ok sa (some peer) => .ok sa peer
  | .ok _ none => .err .PeerIdMissing
  | .err _ => .err .PeerIdMissing

/-! ## `ProtocolName` (`types/protocol.rs`) -/

/-- `ProtocolName`: a statically borrowed or heap-allocated string. -/
inductive ProtocolName where
  | Static (s : String)
  | Allocated (s : String)
deriving Repr

/-- `Deref for ProtocolName`: the underlying string. -/
def ProtocolName.deref : ProtocolName → String
  | .Static s => s
  | .Allocated s => s

/-- `PartialEq for ProtocolName`: compare the dereferenced strings. -/
def ProtocolName.eqName (a b : ProtocolName) : Bool :=
  a.deref == b.deref

/-- `Hash for ProtocolName`: hash the dereferenced string. -/
def ProtocolName.hashName (a : ProtocolName) : UInt64 :=
  a.deref.hash

/-! ## Spec-side restatement of the QUIC address contract -/

/-- Tail of the amended parsing contract after `(Ip4|Ip6, Udp, QuicV1)`:
either nothing, or a `P2p` component whose multihash decodes to a peer id,
with all later components ignored; a non-`P2p` component is
`InvalidProtocol` and an undecodable multihash is the decode error. -/
def quicTailSpec (socket_address : SocketAddress) : List MProtocol → ParseOutcome
  | [] => .ok socket_address none
  | .p2p hash :: _ =>
    match hash.asPeerId with
    | some peer => .ok socket_address (some peer)
    | none => .err .ParseError
  | _ :: _ => .err .InvalidProtocol

/-- Amended parsing contract, written from the corrected spec sentence:
the address must start `(Ip4|Ip6, Udp(port), QuicV1)`, optionally followed
by `P2p(multihash)` after which every component is ignored; any deviation
in these leading components is `InvalidProtocol`. -/
def quicAddressSpec : List MProtocol → ParseOutcome
  | .ip4 a :: .udp port :: .quicV1 :: tail =>
    quicTailSpec { isV6 := false, addr := a, port := port } tail
  | .ip6 a :: .udp port :: .quicV1 :: tail =>
    quicTailSpec { isV6 := true, addr := a, port := port } tail
  | _ => .err .InvalidProtocol

/-! ## Claims -/

/-- C1: the claim promises exactly one terminal event per issued
`RequestId`.  The code violates it: after `ConnectionEstablished(0)`, a
`SendRequest{peer 0, id 1}` whose `open_substream` call fails emits
`RequestFailed{Rejected}` but leaves id 1 in `peers[0].active`, so the
later `ConnectionClosed(0)` emits a second `RequestFailed{Rejected}` for
the same id: the trace below produces two terminal events for id 1. -/
theorem c1_double_terminal_event :
    (engineRun Engine.initial
      [.connectionEstablished 0 none,
       .sendRequest 0 1 [] .Reject true none,
       .connectionClosed 0]).2 =
      [.RequestFailed 0 1 .Rejected, .RequestFailed 0 1 .Rejected] ∧
    terminalCount (engineRun Engine.initial
      [.connectionEstablished 0 none,
       .sendRequest 0 1 [] .Reject true none,
       .connectionClosed 0]).2 1 = 2 :=
  ⟨rfl, rfl⟩

/-- C2 counterexample: peer 0 connects, request id 2 goes out on
substream 7, the user cancels it, and the in-flight future resolves as
`Canceled` first — yet the engine emits no event at all for the request,
in particular not the `RequestFailed{peer 0, id 2, Canceled}` the claim
promises. -/
theorem c2_cancel_emits_no_event :
    RequestResponseEvent.RequestFailed 0 2 .Canceled ∉
      (engineRun Engine.initial
        [.connectionEstablished 0 none,
         .sendRequest 0 2 [] .Reject true (some 7),
         .outboundSubstream 0 7,
         .cancelRequest 2,
         .futureResolved 0 2 (.err .Canceled)]).2 ∧
    (engineRun Engine.initial
      [.connectionEstablished 0 none,
       .sendRequest 0 2 [] .Reject true (some 7),
       .outboundSubstream 0 7,
       .cancelRequest 2,
       .futureResolved 0 2 (.err .Canceled)]).2 = [] := by
  refine ⟨?_, rfl⟩
  decide

/-- C2 amended: when the in-flight future of an active request resolves
with `Canceled`, the engine removes the id from the peer's active set and
returns `Ok` without emitting any user event. -/
theorem c2_canceled_resolution_is_silent (st : Engine) (peer : PeerId)
    (request_id : RequestId) (ctx : PeerContext)
    (hpeer : alistLookup st.peers peer = some ctx)
    (hactive : request_id ∈ ctx.active) :
    on_substream_event st peer request_id (.err .Canceled) =
      { state :=
          { st with
            peers :=
              alistInsert st.peers peer ({ ctx with active := ctx.active.erase request_id }) }
        events := []
        result := .ok } := by
  unfold on_substream_event setRemove
  simp [hpeer, hactive]

/-- C2 amended, witness: a concrete engine whose peer 0 has request 2
active resolves a `Canceled` future silently. -/
theorem c2_canceled_resolution_is_silent_witness :
    on_substream_event
      { Engine.initial with peers := [(0, { active := [2], active_inbound := [] })] }
      0 2 (.err .Canceled) =
      { state := { Engine.initial with peers := [(0, { active := [], active_inbound := [] })] }
        events := []
        result := .ok } :=
  c2_canceled_resolution_is_silent
    { Engine.initial with peers := [(0, { active := [2], active_inbound := [] })] }
    0 2 { active := [2], active_inbound := [] } rfl (by decide)

/-- C5: in the in-flight request future, a `PermissionDenied` send error
resolves as `TooLargePayload`, any other send error as `NotConnected`; a
successful send resolves as the received bytes, or `Canceled`, `Timeout`,
or `Rejected` (substream error or orderly close) depending on which
select branch fires first. -/
theorem c5_request_future_resolution (peer : PeerId) (request_id : RequestId)
    (sel : SelectOutcome) (response : Bytes) :
    request_future peer request_id .ioPermissionDenied sel =
      (peer, request_id, .err .TooLargePayload) ∧
    request_future peer request_id .otherError sel =
      (peer, request_id, .err .NotConnected) ∧
    request_future peer request_id .sent (.recvFrame response) =
      (peer, request_id, .ok response) ∧
    request_future peer request_id .sent .canceled = (peer, request_id, .err .Canceled) ∧
    request_future peer request_id .sent .timedOut = (peer, request_id, .err .Timeout) ∧
    request_future peer request_id .sent .recvError = (peer, request_id, .err .Rejected) ∧
    request_future peer request_id .sent .recvClosed = (peer, request_id, .err .Rejected) :=
  ⟨rfl, rfl, rfl, rfl, rfl, rfl, rfl⟩

/-- C10: an inbound `SubstreamOpened` for a peer missing from the peers
map returns `PeerDoesntExist`, emits no event, and leaves the whole
engine state unchanged except the advanced request-id counter; in
particular no entry is created in `active_inbound` or
`pending_inbound_requests`. -/
theorem c10_inbound_substream_unknown_peer (st : Engine) (peer : PeerId)
    (fallback : Option String) (substream : Nat)
    (hpeer : alistLookup st.peers peer = none) :
    on_inbound_substream st peer fallback substream =
      { state := { st with next_request_id := st.next_request_id + 1 }
        events := []
        result := .err .PeerDoesntExist } := by
  unfold on_inbound_substream
  simp [hpeer]

/-- C10 witness: the fresh engine has no peer 0, so an inbound substream
from peer 0 only advances the counter. -/
theorem c10_inbound_substream_unknown_peer_witness :
    on_inbound_substream Engine.initial 0 none 5 =
      { state := { Engine.initial with next_request_id := 1 }
        events := []
        result := .err .PeerDoesntExist } :=
  c10_inbound_substream_unknown_peer Engine.initial 0 none 5 rfl

/-- C3: the notification driver reads a new inbound frame only when no
frame is pending (the inbound-read select arm is disabled otherwise),
buffers exactly the frame it read, and delivers the pending frame only
through a successful capacity reservation on the user channel, which
clears the buffer — so the buffer never holds more than one
notification. -/
theorem c3_single_buffered_frame (n d : Bytes) (event : FrameEvent) (reserveOk : Bool) :
    connStep (some n) (.inboundRead event) = .disabled ∧
    connStep none (.notifReserve reserveOk) = .disabled ∧
    connStep none (.inboundRead (.frame d)) = .looping (some d) none ∧
    (∀ buf branch buf1 out, connStep buf branch = .looping buf1 (some out) →
       branch = .notifReserve true ∧ buf = some out ∧ buf1 = none) ∧
    (∀ buf branch buf1 out, connStep buf branch = .looping buf1 out →
       bufferCount buf1 ≤ 1) := by
  refine ⟨rfl, rfl, rfl, ?_, ?_⟩
  · intro buf branch buf1 out h
    cases branch with
    | shutdownSignal => simp [connStep] at h
    | asyncRecv v sendOk => cases v <;> cases sendOk <;> simp [connStep] at h
    | syncRecv v sendOk => cases v <;> cases sendOk <;> simp [connStep] at h
    | notifReserve r =>
      cases buf with
      | none => simp [connStep] at h
      | some m =>
        cases r with
        | false => simp [connStep] at h
        | true =>
          simp only [connStep, StepOutcome.looping.injEq, if_true] at h
          exact ⟨rfl, by rw [h.2], h.1.symm⟩
    | inboundRead ev =>
      cases buf with
      | some m => simp [connStep] at h
      | none => cases ev <;> simp [connStep] at h
    | outboundRead ev => cases ev <;> simp [connStep] at h
  · intro buf branch buf1 out h
    cases buf1 <;> simp [bufferCount]

/-- C3 witness: with frame `[7]` buffered the read arm is disabled, and a
delivery step is exactly a successful reservation of a buffered frame. -/
theorem c3_single_buffered_frame_witness :
    connStep (some [7]) (.inboundRead (.frame [8])) = .disabled ∧
    ((ConnBranch.notifReserve true : ConnBranch) = .notifReserve true ∧
     (some [7] : Option Bytes) = some [7] ∧ (none : Option Bytes) = none) :=
  ⟨(c3_single_buffered_frame [7] [8] (.frame [8]) true).1,
   (c3_single_buffered_frame [7] [8] (.frame [8]) true).2.2.2.1
     (some [7]) (.notifReserve true) none [7] rfl⟩

/-- C4: `SendRequest` for a peer missing from the peers map: `Reject`
emits `RequestFailed{NotConnected}`; `Dial` with a successful dial
records the request context in `pending_dials[peer]` and emits nothing;
`Dial` with a failed dial emits `RequestFailed{Rejected}`. -/
theorem c4_send_request_not_connected (st : Engine) (peer : PeerId)
    (request_id : RequestId) (request : Bytes) (dialOk : Bool)
    (openResult : Option SubstreamId)
    (hpeer : alistLookup st.peers peer = none) :
    on_send_request st peer request_id request .Reject dialOk openResult =
      { state := st
        events := [.RequestFailed peer request_id .NotConnected]
        result := .ok } ∧
    on_send_request st peer request_id request .Dial true openResult =
      { state :=
          { st with
            pending_dials :=
              alistInsert st.pending_dials peer (RequestContext.new peer request_id request) }
        events := []
        result := .ok } ∧
    on_send_request st peer request_id request .Dial false openResult =
      { state := st
        events := [.RequestFailed peer request_id .Rejected]
        result := .ok } := by
  unfold on_send_request report_request_failure
  simp [hpeer]

/-- C4 witness: the fresh engine knows no peer, so all three outcomes are
exercised at peer 0. -/
theorem c4_send_request_not_connected_witness :
    on_send_request Engine.initial 0 1 [2] .Reject true none =
      { state := Engine.initial
        events := [.RequestFailed 0 1 .NotConnected]
        result := .ok } ∧
    on_send_request Engine.initial 0 1 [2] .Dial true none =
      { state :=
          { Engine.initial with pending_dials := [(0, RequestContext.new 0 1 [2])] }
        events := []
        result := .ok } ∧
    on_send_request Engine.initial 0 1 [2] .Dial false none =
      { state := Engine.initial
        events := [.RequestFailed 0 1 .Rejected]
        result := .ok } :=
  c4_send_request_not_connected Engine.initial 0 1 [2] true none rfl

/-- C6: every exit path of the connection loop closes both substreams and
reports stream-closed to the user; the shutdown signal is the only exit
that does not signal `conn_closed_tx`, while send failures, closed
async/sync channels, an inbound close or error, and an outbound close
all exit with `conn_closed_tx` signalled. -/
theorem c6_exit_paths (buf : Option Bytes) (n : Bytes) (sendOk : Bool) :
    connStep buf .shutdownSignal = .exit ⟨true, true, false, true⟩ ∧
    connStep buf (.asyncRecv none sendOk) = .exit ⟨true, true, true, true⟩ ∧
    connStep buf (.asyncRecv (some n) false) = .exit ⟨true, true, true, true⟩ ∧
    connStep buf (.syncRecv none sendOk) = .exit ⟨true, true, true, true⟩ ∧
    connStep buf (.syncRecv (some n) false) = .exit ⟨true, true, true, true⟩ ∧
    connStep none (.inboundRead .closed) = .exit ⟨true, true, true, true⟩ ∧
    connStep none (.inboundRead .errored) = .exit ⟨true, true, true, true⟩ ∧
    connStep buf (.outboundRead .closed) = .exit ⟨true, true, true, true⟩ ∧
    (∀ branch actions, connStep buf branch = .exit actions →
       actions.inbound_closed = true ∧ actions.outbound_closed = true ∧
       actions.reported_stream_closed = true ∧
       (actions.notified_protocol = false ↔ branch = .shutdownSignal)) := by
  refine ⟨rfl, rfl, rfl, rfl, rfl, rfl, rfl, rfl, ?_⟩
  intro branch actions h
  cases branch with
  | shutdownSignal =>
    injection h with h2
    subst h2
    simp [close_connection]
  | asyncRecv v s =>
    cases v with
    | none =>
      injection h with h2
      subst h2
      simp [close_connection]
    | some m =>
      cases s with
      | true => simp [connStep] at h
      | false =>
        injection h with h2
        subst h2
        simp [close_connection]
  | syncRecv v s =>
    cases v with
    | none =>
      injection h with h2
      subst h2
      simp [close_connection]
    | some m =>
      cases s with
      | true => simp [connStep] at h
      | false =>
        injection h with h2
        subst h2
        simp [close_connection]
  | notifReserve r =>
    cases buf with
    | none => simp [connStep] at h
    | some m => cases r <;> simp [connStep] at h
  | inboundRead ev =>
    cases buf with
    | some m => simp [connStep] at h
    | none =>
      cases ev with
      | closed =>
        injection h with h2
        subst h2
        simp [close_connection]
      | errored =>
        injection h with h2
        subst h2
        simp [close_connection]
      | frame data => simp [connStep] at h
  | outboundRead ev =>
    cases ev with
    | closed =>
      injection h with h2
      subst h2
      simp [close_connection]
    | errored => simp [connStep] at h
    | frame data => simp [connStep] at h

/-- C6 witness: the shutdown exit at a concrete state closes both
substreams, reports stream-closed, and does not signal the handler. -/
theorem c6_exit_paths_witness :
    (⟨true, true, false, true⟩ : CloseActions).inbound_closed = true ∧
    (⟨true, true, false, true⟩ : CloseActions).outbound_closed = true ∧
    (⟨true, true, false, true⟩ : CloseActions).reported_stream_closed = true ∧
    ((⟨true, true, false, true⟩ : CloseActions).notified_protocol = false ↔
      (ConnBranch.shutdownSignal : ConnBranch) = .shutdownSignal) :=
  (c6_exit_paths (some [1]) [2] true).2.2.2.2.2.2.2.2
    .shutdownSignal ⟨true, true, false, true⟩ rfl

/-- C7 counterexample: request 3 is sent and its future resolves with
`Timeout`, dropping the cancellation receiver; the later
`CancelRequest(3)` finds the stale one-shot sender still stored, removes
it (state change), and returns `Error::SubstreamDoesntExist` instead of
silently succeeding. -/
theorem c7_cancel_after_resolution_errors :
    (on_cancel_request (engineRun Engine.initial
      [.connectionEstablished 0 none,
       .sendRequest 0 3 [] .Reject true (some 7),
       .outboundSubstream 0 7,
       .futureResolved 0 3 (.err .Timeout)]).1 3).result = .err .SubstreamDoesntExist ∧
    (engineRun Engine.initial
      [.connectionEstablished 0 none,
       .sendRequest 0 3 [] .Reject true (some 7),
       .outboundSubstream 0 7,
       .futureResolved 0 3 (.err .Timeout)]).1.pending_outbound_cancels = [(3, ())] ∧
    (on_cancel_request (engineRun Engine.initial
      [.connectionEstablished 0 none,
       .sendRequest 0 3 [] .Reject true (some 7),
       .outboundSubstream 0 7,
       .futureResolved 0 3 (.err .Timeout)]).1 3).state.pending_outbound_cancels = [] :=
  ⟨rfl, rfl, rfl⟩

/-- C7 amended: `CancelRequest` for an id absent from
`pending_outbound_cancels` (a request that never existed, or whose entry
is gone) silently succeeds with unchanged state; for an id whose stale
entry is still present although its in-flight future already completed,
the entry is removed and the handler returns `Error::SubstreamDoesntExist`
(which the event loop only logs); in both cases no user event is
emitted. -/
theorem c7_cancel_request_outcomes (st st2 : Engine) (request_id : RequestId)
    (entry : Unit)
    (habsent : alistLookup st.pending_outbound_cancels request_id = none)
    (hstale : alistLookup st2.pending_outbound_cancels request_id = some entry)
    (hdead : cancelReceiverAlive st2 request_id = false) :
    on_cancel_request st request_id = { state := st, events := [], result := .ok } ∧
    on_cancel_request st2 request_id =
      { state :=
          { st2 with
            pending_outbound_cancels :=
              alistRemove st2.pending_outbound_cancels request_id }
        events := []
        result := .err .SubstreamDoesntExist } := by
  unfold on_cancel_request
  simp [habsent, hstale, hdead]

/-- C7 amended, witness: cancelling id 3 on the fresh engine succeeds
silently; cancelling it on an engine holding only a stale one-shot
returns the internal error and removes the entry. -/
theorem c7_cancel_request_outcomes_witness :
    on_cancel_request Engine.initial 3 =
      { state := Engine.initial, events := [], result := .ok } ∧
    on_cancel_request { Engine.initial with pending_outbound_cancels := [(3, ())] } 3 =
      { state := Engine.initial
        events := []
        result := .err .SubstreamDoesntExist } :=
  c7_cancel_request_outcomes Engine.initial
    { Engine.initial with pending_outbound_cancels := [(3, ())] } 3 () rfl rfl rfl

/-- C8 counterexample: the address `(Ip4, Udp, QuicV1, P2p, Udp)` deviates
from the claimed sequence — it has a trailing component after `P2p` — yet
`get_socket_address` parses it successfully rather than returning
`InvalidProtocol`: components after `P2p` are never drawn from the
iterator. -/
theorem c8_trailing_component_accepted :
    get_socket_address [.ip4 1, .udp 5, .quicV1, .p2p ⟨some 9⟩, .udp 99] =
      .ok { isV6 := false, addr := 1, port := 5 } (some 9) ∧
    get_socket_address [.ip4 1, .udp 5, .quicV1, .p2p ⟨some 9⟩, .udp 99] ≠
      .err .InvalidProtocol :=
  ⟨rfl, by decide⟩

/-- The suffix handling of `get_socket_address` after `QuicV1` coincides
with the spec-side tail contract. -/
theorem quicSuffix_quicV1 (sa : SocketAddress) (l : List MProtocol) :
    quicSuffix sa (.quicV1 :: l) = quicTailSpec sa l := by
  cases l with
  | nil => rfl
  | cons p rest =>
    cases p with
    | p2p hash => obtain ⟨mp⟩ := hash; cases mp <;> rfl
    | ip4 a => rfl
    | ip6 a => rfl
    | udp a => rfl
    | quicV1 => rfl
    | tcp a => rfl

/-- C8 amended: parsing succeeds exactly on `(Ip4|Ip6, Udp(port), QuicV1)`
optionally followed by `P2p(multihash)` and then arbitrary ignored
components; a deviation in these leading components yields
`InvalidProtocol`, a `P2p` multihash that does not decode to a peer id
yields the decode error, and a dial target whose address does not parse
to a peer id — in particular one lacking the `P2p` suffix — yields
`PeerIdMissing`. -/
theorem c8_quic_address_contract :
    (∀ address, get_socket_address address = quicAddressSpec address) ∧
    (∀ address sa peer, get_socket_address address = .ok sa (some peer) →
       on_dial_peer_address address = .ok sa peer) ∧
    (∀ address sa, get_socket_address address = .ok sa none →
       on_dial_peer_address address = .err .PeerIdMissing) ∧
    (∀ address e, get_socket_address address = .err e →
       on_dial_peer_address address = .err .PeerIdMissing) := by
  refine ⟨?_, ?_, ?_, ?_⟩
  · intro address
    cases address with
    | nil => rfl
    | cons p1 rest1 =>
      cases p1 with
      | ip4 a =>
        cases rest1 with
        | nil => rfl
        | cons p2 rest2 =>
          cases p2 with
          | udp port =>
            cases rest2 with
            | nil => rfl
            | cons p3 rest3 =>
              cases p3 with
              | quicV1 => exact quicSuffix_quicV1 _ rest3
              | ip4 b => rfl
              | ip6 b => rfl
              | udp b => rfl
              | p2p b => rfl
              | tcp b => rfl
          | ip4 b => rfl
          | ip6 b => rfl
          | quicV1 => rfl
          | p2p b => rfl
          | tcp b => rfl
      | ip6 a =>
        cases rest1 with
        | nil => rfl
        | cons p2 rest2 =>
          cases p2 with
          | udp port =>
            cases rest2 with
            | nil => rfl
            | cons p3 rest3 =>
              cases p3 with
              | quicV1 => exact quicSuffix_quicV1 _ rest3
              | ip4 b => rfl
              | ip6 b => rfl
              | udp b => rfl
              | p2p b => rfl
              | tcp b => rfl
          | ip4 b => rfl
          | ip6 b => rfl
          | quicV1 => rfl
          | p2p b => rfl
          | tcp b => rfl
      | udp a => rfl
      | quicV1 => rfl
      | p2p a => rfl
      | tcp a => rfl
  · intro address sa peer h
    unfold on_dial_peer_address
    rw [h]
  · intro address sa h
    unfold on_dial_peer_address
    rw [h]
  · intro address e h
    unfold on_dial_peer_address
    rw [h]

/-- C8 amended, witness: the contract evaluated at concrete addresses
with and without the `P2p` suffix. -/
theorem c8_quic_address_contract_witness :
    get_socket_address [.ip4 1, .udp 5, .quicV1, .p2p ⟨some 9⟩, .udp 99] =
      quicAddressSpec [.ip4 1, .udp 5, .quicV1, .p2p ⟨some 9⟩, .udp 99] ∧
    on_dial_peer_address [.ip4 1, .udp 5, .quicV1, .p2p ⟨some 9⟩, .udp 99] =
      .ok { isV6 := false, addr := 1, port := 5 } 9 ∧
    on_dial_peer_address [.ip4 1, .udp 5, .quicV1] = .err .PeerIdMissing ∧
    on_dial_peer_address [.ip4 1, .udp 5] = .err .PeerIdMissing :=
  ⟨c8_quic_address_contract.1 [.ip4 1, .udp 5, .quicV1, .p2p ⟨some 9⟩, .udp 99],
   c8_quic_address_contract.2.1 [.ip4 1, .udp 5, .quicV1, .p2p ⟨some 9⟩, .udp 99]
     { isV6 := false, addr := 1, port := 5 } 9 rfl,
   c8_quic_address_contract.2.2.1 [.ip4 1, .udp 5, .quicV1]
     { isV6 := false, addr := 1, port := 5 } rfl,
   c8_quic_address_contract.2.2.2 [.ip4 1, .udp 5] .InvalidProtocol rfl⟩

/-- C9: a static and an allocated `ProtocolName` over the same string are
equal and hash identically, and `ProtocolName` equality is reflexive,
symmetric, and transitive, so the two representations interoperate as
map keys. -/
theorem c9_protocol_name_by_contents (s : String) (a b c : ProtocolName) :
    ProtocolName.eqName (.Static s) (.Allocated s) = true ∧
    ProtocolName.hashName (.Static s) = ProtocolName.hashName (.Allocated s) ∧
    ProtocolName.eqName a a = true ∧
    (ProtocolName.eqName a b = true → ProtocolName.eqName b a = true) ∧
    (ProtocolName.eqName a b = true → ProtocolName.eqName b c = true →
       ProtocolName.eqName a c = true) := by
  have key : ∀ x y : ProtocolName, ProtocolName.eqName x y = true ↔ x.deref = y.deref := by
    intro x y
    simp [ProtocolName.eqName]
  exact ⟨(key _ _).mpr rfl, rfl, (key _ _).mpr rfl,
    fun h => (key _ _).mpr ((key _ _).mp h).symm,
    fun h1 h2 => (key _ _).mpr (((key _ _).mp h1).trans ((key _ _).mp h2))⟩

/-- C9 witness: the two representations of a concrete protocol label are
interchangeable, and transitivity holds at concrete names. -/
theorem c9_protocol_name_by_contents_witness :
    ProtocolName.eqName (.Static "/p/1") (.Allocated "/p/1") = true ∧
    ProtocolName.eqName (.Static "/p/1") (.Static "/p/1") = true :=
  ⟨(c9_protocol_name_by_contents "/p/1" (.Static "/p/1") (.Allocated "/p/1")
      (.Static "/p/1")).1,
   (c9_protocol_name_by_contents "/p/1" (.Static "/p/1") (.Allocated "/p/1")
      (.Static "/p/1")).2.2.2.2 (by decide) (by decide)⟩

end Litep2p
